import Mathlib

/-!
Verification of the rlrl reinforcement-learning library.

Tensors are embedded as lists of scalars: rationals for plain float
arithmetic, reals where transcendental functions (tanh, exp, log) occur.
A scalar of a reward tensor is either NaN or an ordinary value, since
`SACWithReset` branches on NaN-ness of rewards.  Stochastic sampling from
a policy (`distrib.sample()`) is embedded as a function giving the drawn
action for each state, so every statement is about one fixed draw.
-/

/-- A float scalar as stored in a reward tensor: NaN or an ordinary value
(ordinary float values are modelled by rationals). -/
inductive FloatVal where
  | nan : FloatVal
  | val : ℚ → FloatVal
deriving DecidableEq

/-- torch.nan_to_num(x, y): NaN entries become y, ordinary entries are kept. -/
def nan_to_num (x : FloatVal) (y : ℚ) : ℚ :=
  match x with
  | .nan => y
  | .val r => r

/-- torch.isnan(x).float(): 1.0 on NaN entries, 0.0 on ordinary entries. -/
def isnan_float (x : FloatVal) : ℚ :=
  match x with
  | .nan => 1
  | .val _ => 0

/-- A Bool tensor entry promoted to a float factor, as in
`batch.terminal.logical_not() * ...`. -/
def bool_not_float (b : Bool) : ℚ := if b then 0 else 1

/-- F.mse_loss with the default mean reduction, on flat tensors of equal
length. -/
def mse_loss (pred target : List ℚ) : ℚ :=
  (List.zipWith (fun p t => (p - t) ^ 2) pred target).sum / (pred.length : ℚ)

/-- Mean of a flat tensor, as in `tensor.mean()`. -/
def mean_list (xs : List ℚ) : ℚ := xs.sum / (xs.length : ℚ)

/-- Elementwise combination of three tensors of the same batch dimension. -/
def zipWith3 (f : α → β → γ → δ) : List α → List β → List γ → List δ
  | a :: as, b :: bs, c :: cs => f a b c :: zipWith3 f as bs cs
  | _, _, _ => []

/-! ## DDPG (src/rl_algos/agents/ddpg_agent.py) -/

/-- A training batch for DDPG; reward entries are ordinary floats. -/
structure DDPGBatch (S A : Type) where
  state : List S
  action : List A
  reward : List ℚ
  next_state : List S
  terminal : List Bool

/-- The pieces of a DDPG agent that `compute_q_loss` reads: the online and
target Q functions, the target policy (as the map from a state to the action
drawn by `self.policy_target(batch.next_state).sample()`), and gamma. -/
structure DDPGModel (S A : Type) where
  q : S → A → ℚ
  q_target : S → A → ℚ
  policy_target_sample : S → A
  gamma : ℚ

/-- One entry of the DDPG Bellman target tensor:
`batch.reward + self.gamma * batch.terminal.logical_not() * torch.flatten(next_q)`
with `next_q = self.q_target((batch.next_state, next_actions))`. -/
def DDPG.q_target_entry {S A : Type} (m : DDPGModel S A) (reward : ℚ) (terminal : Bool)
    (s' : S) : ℚ :=
  reward + m.gamma * bool_not_float terminal *
    m.q_target s' (m.policy_target_sample s')

/-- DDPG.compute_q_loss: mse between the online Q prediction on
(state, action) and the Bellman target. -/
def DDPG.compute_q_loss {S A : Type} (m : DDPGModel S A) (b : DDPGBatch S A) : ℚ :=
  let q_target := zipWith3 (DDPG.q_target_entry m) b.reward b.terminal b.next_state
  let q_pred := List.zipWith m.q b.state b.action
  mse_loss q_pred q_target

/-! ## SACWithReset (src/rl_algos/agents/research/sac_with_reset.py) -/

/-- A training batch as used by SACWithReset; reward entries can be NaN
(resets are marked by NaN rewards). -/
structure TrainingBatch (S A : Type) where
  state : List S
  action : List A
  reward : List FloatVal
  next_state : List S
  terminal : List Bool

/-- The pieces of a SACWithReset agent read by compute_q_loss and
compute_reset_losses: online and target Q functions, the current policy (as
the map from a state to the action drawn by `self.policy(s).sample()` and the
log-probability function of the policy), the scalar temperature, reset cost,
reset rate and its target, the reset-Q networks, the target terminal
probability, and gamma. -/
structure SACWithResetModel (S A : Type) where
  q1 : S → A → ℚ
  q2 : S → A → ℚ
  q1_target : S → A → ℚ
  q2_target : S → A → ℚ
  policy_sample : S → A
  policy_log_prob : S → A → ℚ
  temperature : ℚ
  reset_cost : ℚ
  reset_rate : ℚ
  reset_rate_target : ℚ
  reset_q : S → A → ℚ
  reset_q_target : S → A → ℚ
  target_terminal_probability : ℚ
  gamma : ℚ

/-- One entry of the SACWithReset Bellman target tensor:
`torch.nan_to_num(batch.reward, -reset_cost)
  + batch.terminal.logical_not() * gamma * (next_q - temperature * next_log_prob)`
with `next_q = min (q1_target (s', a')) (q2_target (s', a'))` and a' drawn
from the current policy at the next state. -/
def SACWithReset.bellman_target {S A : Type} (m : SACWithResetModel S A)
    (reward : FloatVal) (terminal : Bool) (s' : S) : ℚ :=
  let a' := m.policy_sample s'
  let next_q := min (m.q1_target s' a') (m.q2_target s' a')
  let entropy_term := m.temperature * m.policy_log_prob s' a'
  nan_to_num reward (-m.reset_cost) +
    bool_not_float terminal * m.gamma * (next_q - entropy_term)

/-- The SACWithReset Bellman target tensor, elementwise over the batch. -/
def SACWithReset.q_target_list {S A : Type} (m : SACWithResetModel S A)
    (b : TrainingBatch S A) : List ℚ :=
  zipWith3 (SACWithReset.bellman_target m) b.reward b.terminal b.next_state

/-- SACWithReset.compute_q_loss:
`0.5 * (F.mse_loss(q1_pred, q_target) + F.mse_loss(q2_pred, q_target))`. -/
def SACWithReset.compute_q_loss {S A : Type} (m : SACWithResetModel S A)
    (b : TrainingBatch S A) : ℚ :=
  let q_target := SACWithReset.q_target_list m b
  let q1_pred := List.zipWith m.q1 b.state b.action
  let q2_pred := List.zipWith m.q2 b.state b.action
  (1 / 2) * (mse_loss q1_pred q_target + mse_loss q2_pred q_target)

/-- `next_reset_q`: the target reset-Q network applied to the next state and
an action drawn from the current policy there. -/
def SACWithReset.next_reset_q {S A : Type} (m : SACWithResetModel S A) (s' : S) : ℚ :=
  m.reset_q_target s' (m.policy_sample s')

/-- The `reset_q_target` tensor of compute_reset_losses:
`reward - reset_rate_target() + next_reset_q` with
`reward = torch.isnan(batch.reward).float()`. -/
def SACWithReset.reset_q_target_list {S A : Type} (m : SACWithResetModel S A)
    (b : TrainingBatch S A) : List ℚ :=
  List.zipWith
    (fun r s' => isnan_float r - m.reset_rate_target + SACWithReset.next_reset_q m s')
    b.reward b.next_state

/-- The `reset_rate_target` tensor of compute_reset_losses:
`reward - current_reset_q + next_reset_q` with
`current_reset_q = reset_q_target((batch.state, batch.action))` and
`reward = torch.isnan(batch.reward).float()`. -/
def SACWithReset.reset_rate_target_list {S A : Type} (m : SACWithResetModel S A)
    (b : TrainingBatch S A) : List ℚ :=
  zipWith3
    (fun r cq s' => isnan_float r - cq + SACWithReset.next_reset_q m s')
    b.reward (List.zipWith m.reset_q_target b.state b.action) b.next_state

/-- SACWithReset.compute_reset_losses: the triple
(reset_q_loss, reset_rate_loss, reset_cost_loss). The reset-rate loss is the
mse between the scalar reset-rate prediction and the mean of its target
tensor; the reset-cost loss is
`-mean(reset_cost * (float(reset_rate) - target_terminal_probability))`. -/
def SACWithReset.compute_reset_losses {S A : Type} (m : SACWithResetModel S A)
    (b : TrainingBatch S A) : ℚ × ℚ × ℚ :=
  let reset_q_pred := List.zipWith m.reset_q b.state b.action
  (mse_loss reset_q_pred (SACWithReset.reset_q_target_list m b),
   (m.reset_rate - mean_list (SACWithReset.reset_rate_target_list m b)) ^ 2,
   -(m.reset_cost * (m.reset_rate - m.target_terminal_probability)))


/-! ## Target-network synchronization (C2) -/

/-- Modelled from the spec: `synchronize_parameters` (rl_algos.utils.sync_param)
is not under src/.  The spec's glossary calls the target network a
"periodically/softly updated copy of a network"; with method="soft" and rate
tau each destination parameter becomes (1 - tau) * dst + tau * src. -/
def synchronize_parameters_soft (tau : ℚ) (src dst : List ℚ) : List ℚ :=
  List.zipWith (fun s d => (1 - tau) * d + tau * s) src dst

/-- The parameter vectors of the four networks held by a DDPG agent. -/
structure DDPGParams where
  policy : List ℚ
  policy_target : List ℚ
  q : List ℚ
  q_target : List ℚ

/-- DDPG.__init__: each target network starts as a deep copy of its online
network. -/
def DDPG.init_params (policy q : List ℚ) : DDPGParams :=
  { policy := policy, policy_target := policy, q := q, q_target := q }

/-- DDPG._sync_target_network: soft updates of policy_target from policy and of
q_target from q. -/
def DDPG.sync_target_network (tau : ℚ) (p : DDPGParams) : DDPGParams :=
  { p with
    policy_target := synchronize_parameters_soft tau p.policy p.policy_target,
    q_target := synchronize_parameters_soft tau p.q p.q_target }

/-- The additional parameter vectors held by SACWithReset: reset_rate and
reset_q with their targets. -/
structure SACWithResetParams where
  reset_rate : List ℚ
  reset_rate_target : List ℚ
  reset_q : List ℚ
  reset_q_target : List ℚ

/-- SACWithReset.__init__: reset_rate_target and reset_q_target start as deep
copies of reset_rate and reset_q. -/
def SACWithReset.init_reset_params (reset_rate reset_q : List ℚ) : SACWithResetParams :=
  { reset_rate := reset_rate, reset_rate_target := reset_rate,
    reset_q := reset_q, reset_q_target := reset_q }

/-- SACWithReset._sync_target_network, the part added over the superclass:
soft updates of reset_rate_target and reset_q_target. -/
def SACWithReset.sync_reset_targets (tau : ℚ) (p : SACWithResetParams) : SACWithResetParams :=
  { p with
    reset_rate_target := synchronize_parameters_soft tau p.reset_rate p.reset_rate_target,
    reset_q_target := synchronize_parameters_soft tau p.reset_q p.reset_q_target }

/-! ## update_if_dataset_is_ready (C5) -/

/-- Modelled from the spec: the concrete ReplayBuffer class (rl_algos.buffers)
is not under src/; AbstractReplayBuffer.sample's contract reads "Sample n
unique transitions from this replay buffer ... Returns: Sequence of n sampled
transitions", embedded as taking n stored transitions (which transitions are
drawn is irrelevant to every claim). -/
def ReplayBuffer.sample {T : Type} (buf : List T) (n : ℕ) : List T := buf.take n

/-- The state touched by DDPG.update_if_dataset_is_ready: the replay buffer, a
combined network-and-optimizer state, the just_updated flag and the update
counter. -/
structure DDPGAgentState (T N : Type) where
  replay_buffer : List T
  nets : N
  just_updated : Bool
  num_update : ℕ

/-- DDPG.update_if_dataset_is_ready: when the buffer holds strictly more than
replay_start_size transitions, sample batch_size transitions, run the gradient
update `upd` (critic update, actor update, target sync) on them and count the
update; otherwise only clear just_updated. -/
def DDPG.update_if_dataset_is_ready {T N : Type} (replay_start_size batch_size : ℕ)
    (upd : N → List T → N) (st : DDPGAgentState T N) : DDPGAgentState T N :=
  if st.replay_buffer.length > replay_start_size then
    { st with
      just_updated := true,
      nets := upd st.nets (ReplayBuffer.sample st.replay_buffer batch_size),
      num_update := st.num_update + 1 }
  else
    { st with just_updated := false }

/-- The state touched by SACWithReset.update_if_dataset_is_ready. -/
structure SACAgentState (T N : Type) where
  replay_buffer : List T
  nets : N
  just_updated : Bool

/-- SACWithReset.update_if_dataset_is_ready: as for DDPG (with the q, reset
cost, policy-and-temperature updates and the target sync as the gradient
update), without an update counter. -/
def SACWithReset.update_if_dataset_is_ready {T N : Type} (replay_start_size batch_size : ℕ)
    (upd : N → List T → N) (st : SACAgentState T N) : SACAgentState T N :=
  if st.replay_buffer.length > replay_start_size then
    { st with
      just_updated := true,
      nets := upd st.nets (ReplayBuffer.sample st.replay_buffer batch_size) }
  else
    { st with just_updated := false }

/-! ## Replay buffer capacity (C6) -/

/-- The operations of the AbstractReplayBuffer interface that touch the stored
transitions. -/
inductive BufOp (T : Type) where
  | append (t : T)
  | sample (n : ℕ)
  | stop_current_episode
  | save
  | load (contents : List T)

/-- Modelled from the spec: no concrete replay buffer is under src/ (only the
AbstractReplayBuffer interface); the spec calls the buffer a "bounded store of
past environment transitions", embedded as a FIFO that evicts the oldest
transitions beyond its capacity. -/
def ReplayBuffer.append {T : Type} (capacity : ℕ) (buf : List T) (t : T) : List T :=
  let b := buf ++ [t]
  if capacity < b.length then b.drop (b.length - capacity) else b

/-- Effect of one AbstractReplayBuffer operation on the stored transitions:
append stores one transition (evicting beyond capacity); sample,
stop_current_episode and save do not change the contents; load replaces them
by saved contents, of which at most capacity many fit the bounded store. -/
def ReplayBuffer.applyOp {T : Type} (capacity : ℕ) (buf : List T) : BufOp T → List T
  | .append t => ReplayBuffer.append capacity buf t
  | .sample _ => buf
  | .stop_current_episode => buf
  | .save => buf
  | .load contents => contents.take capacity

/-- A sequence of replay-buffer operations, applied in order. -/
def ReplayBuffer.run {T : Type} (capacity : ℕ) (buf : List T) (ops : List (BufOp T)) : List T :=
  ops.foldl (ReplayBuffer.applyOp capacity) buf

/-! ## ResetRate clipping (C9) -/

/-- ResetRate.clip: `torch.clip(reset_rate_param, min=0.0, max=1.0)`. -/
def ResetRate.clip (x : ℚ) : ℚ := min (max x 0) 1

/-- The effect of one _update_reset_cost call on the reset_rate parameter: an
optimizer step (left arbitrary, since the claim must hold regardless of the
gradient step taken) followed by ResetRate.clip. -/
def SACWithReset.update_reset_rate_step (step : ℚ → ℚ) (x : ℚ) : ℚ :=
  ResetRate.clip (step x)

/-- The reset_rate parameter after a sequence of _update_reset_cost calls;
no other code writes to reset_rate's parameter. -/
def SACWithReset.run_reset_rate_updates (steps : List (ℚ → ℚ)) (x : ℚ) : ℚ :=
  steps.foldl (fun r s => SACWithReset.update_reset_rate_step s r) x

/-! ## SingleAsVectorEnv (src/rlrl/wrappers/single_as_vector_env.py) -/

/-- SingleAsVectorEnv.step_wait, given the wrapped env's step output
(observation, reward, done, info) and the observation env.reset() would
return: wraps everything into length-1 arrays; when done, the fresh reset
observation replaces the output observation and the final observation of the
episode is stored in info under "terminal_observation". -/
def SingleAsVectorEnv.step_wait {Obs : Type} (observation : Obs) (reward : ℚ)
    (done : Bool) (info : List (String × Obs)) (reset_observation : Obs) :
    List Obs × List ℚ × List Bool × List (List (String × Obs)) :=
  if done then
    ([reset_observation], [reward], [done],
      [("terminal_observation", observation) :: info])
  else
    ([observation], [reward], [done], [info])

/-! ## record_videos_from_actor (src/rlrl/experiments/record_videos_from_actor.py) -/

/-- An error raised by library code itself, as opposed to errors surfacing
from the numeric framework or the environment. -/
inductive LibraryError where
  | notImplementedError : LibraryError
deriving DecidableEq

/-- record_videos_from_actor's result over its pixel and dir arguments; the
recording loop of the pixel branch only drives the external env and actor and
is abstracted to the videos it produces.  With pixel=False and a string dir
the function itself raises NotImplementedError; with pixel=False and no
string dir it falls through and returns None. -/
def record_videos_from_actor {V : Type} (videos : List V) (pixel : Bool)
    (dir : Option String) : Except LibraryError (Option (List V)) :=
  if pixel then Except.ok (some videos)
  else
    match dir with
    | some _ => Except.error LibraryError.notImplementedError
    | none => Except.ok none

/-! ## GaussianPolicy (src/rlrl/policies/gaussian_policy.py) -/

/-- F.softplus. -/
noncomputable def softplus (x : ℝ) : ℝ := Real.log (1 + Real.exp x)

/-- Log-density of Normal(mean, std) at u, as
torch.distributions.Normal.log_prob computes it. -/
noncomputable def normal_log_prob (mean std u : ℝ) : ℝ :=
  -((u - mean) ^ 2) / (2 * std ^ 2) - Real.log std -
    Real.log (Real.sqrt (2 * Real.pi))

/-- GaussianPolicy.action_scale_: (action_high - action_low) / 2, elementwise
over the action dimensions. -/
noncomputable def GaussianPolicy.action_scale (action_high action_low : List ℝ) : List ℝ :=
  List.zipWith (fun h l => (h - l) / 2) action_high action_low

/-- GaussianPolicy.action_bias_: (action_high + action_low) / 2, elementwise
over the action dimensions. -/
noncomputable def GaussianPolicy.action_bias (action_high action_low : List ℝ) : List ℝ :=
  List.zipWith (fun h l => (h + l) / 2) action_high action_low

/-- One component of the action returned by GaussianPolicy.sample:
tanh(u) * action_scale + action_bias, u the pre-squash Gaussian sample. -/
noncomputable def GaussianPolicy.action_entry (scale bias u : ℝ) : ℝ :=
  Real.tanh u * scale + bias

/-- The action returned by GaussianPolicy.sample for one batch row (lists
range over action dimensions). -/
noncomputable def GaussianPolicy.action (scale bias u : List ℝ) : List ℝ :=
  zipWith3 GaussianPolicy.action_entry scale bias u

/-- The log_prob returned by GaussianPolicy.sample for one batch row:
`normal.log_prob(u).sum(dim=1)
  - 2 * (action_scale_ * (log 2 - u - softplus(-2 * u))).sum(dim=1)`. -/
noncomputable def GaussianPolicy.log_prob (mean std scale u : List ℝ) : ℝ :=
  (zipWith3 normal_log_prob mean std u).sum -
    2 * (List.zipWith (fun s ui => s * (Real.log 2 - ui - softplus (-2 * ui)))
      scale u).sum

/-- The log-density the spec claims for GaussianPolicy.sample, written from the
spec's words for comparison: the Gaussian log-density of the pre-squash sample
minus the change-of-variables correction of action = tanh(u) * scale + bias,
whose log-Jacobian is the sum over components of log(scale * (1 - tanh(u)^2)).
-/
noncomputable def squashed_gaussian_log_density (mean std scale u : List ℝ) : ℝ :=
  (zipWith3 normal_log_prob mean std u).sum -
    (List.zipWith (fun s ui => Real.log (s * (1 - Real.tanh ui ^ 2)))
      scale u).sum

/-! ## Concrete instances used to evaluate the claims -/

/-- A concrete SACWithReset agent. -/
def sacW : SACWithResetModel ℚ ℚ :=
  { q1 := fun s a => s + a
    q2 := fun s a => s - a
    q1_target := fun s a => s * a
    q2_target := fun _ _ => 2
    policy_sample := fun s => s + 1
    policy_log_prob := fun s a => s - a
    temperature := 1 / 2
    reset_cost := 3
    reset_rate := 1 / 4
    reset_rate_target := 1 / 5
    reset_q := fun s a => s + 2 * a
    reset_q_target := fun s a => s - a
    target_terminal_probability := 1 / 1000
    gamma := 9 / 10 }

/-- A concrete one-transition batch with an ordinary (non-NaN) reward. -/
def batchW : TrainingBatch ℚ ℚ :=
  { state := [1], action := [2], reward := [FloatVal.val 3], next_state := [4],
    terminal := [false] }

/-- A concrete DDPG agent state over natural-number transitions, with a
network state counting consumed transitions. -/
def ddpgStW : DDPGAgentState ℕ ℕ :=
  { replay_buffer := [10, 11, 12], nets := 0, just_updated := false,
    num_update := 5 }

/-- A concrete SACWithReset agent state over natural-number transitions. -/
def sacStW : SACAgentState ℕ ℕ :=
  { replay_buffer := [10, 11, 12], nets := 0, just_updated := false }

/-- A concrete gradient-update function for the agent states above. -/
def updW : ℕ → List ℕ → ℕ := fun n l => n + l.length

/-- A concrete sequence of replay-buffer operations. -/
def opsW : List (BufOp ℕ) :=
  [BufOp.append 1, BufOp.append 2, BufOp.append 3, BufOp.sample 1,
   BufOp.save, BufOp.load [5, 6, 7], BufOp.stop_current_episode,
   BufOp.append 4]

/-- A concrete sequence of optimizer steps on the reset rate, the first of
which leaves the parameter far outside the unit interval. -/
def stepsW : List (ℚ → ℚ) := [fun r => r + 7, fun r => r - 2]

/-! ## Helper lemmas -/

theorem zipWith3_length (f : α → β → γ → δ) (as : List α) (bs : List β) (cs : List γ) :
    (zipWith3 f as bs cs).length = min as.length (min bs.length cs.length) := by
  induction as generalizing bs cs with
  | nil => simp [zipWith3]
  | cons a as ih =>
    cases bs with
    | nil => simp [zipWith3]
    | cons b bs =>
      cases cs with
      | nil => simp [zipWith3]
      | cons c cs =>
        simp [zipWith3, ih, Nat.succ_min_succ]

theorem zipWith3_congr {f g : α → β → γ → δ} (h : ∀ a b c, f a b c = g a b c)
    (as : List α) (bs : List β) (cs : List γ) :
    zipWith3 f as bs cs = zipWith3 g as bs cs := by
  induction as generalizing bs cs with
  | nil => simp [zipWith3]
  | cons a as ih =>
    cases bs with
    | nil => simp [zipWith3]
    | cons b bs =>
      cases cs with
      | nil => simp [zipWith3]
      | cons c cs => simp [zipWith3, h, ih]

theorem zipWith3_map_left (g : α' → α) (f : α → β → γ → δ)
    (as : List α') (bs : List β) (cs : List γ) :
    zipWith3 f (as.map g) bs cs = zipWith3 (fun a b c => f (g a) b c) as bs cs := by
  induction as generalizing bs cs with
  | nil => simp [zipWith3]
  | cons a as ih =>
    cases bs with
    | nil => simp [zipWith3]
    | cons b bs =>
      cases cs with
      | nil => simp [zipWith3]
      | cons c cs => simp [zipWith3, ih]

theorem zipWith3_get (f : α → β → γ → δ) (as : List α) (bs : List β) (cs : List γ)
    (i : ℕ) (h : i < (zipWith3 f as bs cs).length)
    (ha : i < as.length) (hb : i < bs.length) (hc : i < cs.length) :
    (zipWith3 f as bs cs).get ⟨i, h⟩ =
      f (as.get ⟨i, ha⟩) (bs.get ⟨i, hb⟩) (cs.get ⟨i, hc⟩) := by
  induction as generalizing bs cs i with
  | nil => simp at ha
  | cons a as ih =>
    cases bs with
    | nil => simp at hb
    | cons b bs =>
      cases cs with
      | nil => simp at hc
      | cons c cs =>
        cases i with
        | zero => rfl
        | succ i => exact ih bs cs i _ _ _ _

theorem zipWith_congr_fun {f g : α → β → γ} (h : ∀ a b, f a b = g a b)
    (as : List α) (bs : List β) :
    List.zipWith f as bs = List.zipWith g as bs := by
  induction as generalizing bs with
  | nil => simp
  | cons a as ih =>
    cases bs with
    | nil => simp
    | cons b bs => simp [h, ih]

theorem isnan_float_eq_ite (r : FloatVal) :
    isnan_float r = if r = FloatVal.nan then (1 : ℚ) else 0 := by
  cases r <;> simp [isnan_float]

theorem applyOp_length_le {T : Type} (capacity : ℕ) (buf : List T) (op : BufOp T)
    (h : buf.length ≤ capacity) :
    (ReplayBuffer.applyOp capacity buf op).length ≤ capacity := by
  cases op with
  | append t =>
    simp only [ReplayBuffer.applyOp, ReplayBuffer.append]
    split
    · simp only [List.length_drop]
      omega
    · omega
  | sample n => simpa [ReplayBuffer.applyOp] using h
  | stop_current_episode => simpa [ReplayBuffer.applyOp] using h
  | save => simpa [ReplayBuffer.applyOp] using h
  | load contents =>
    simp only [ReplayBuffer.applyOp, List.length_take]
    omega

theorem clip_mem_unit_interval (x : ℚ) :
    0 ≤ ResetRate.clip x ∧ ResetRate.clip x ≤ 1 := by
  unfold ResetRate.clip
  exact ⟨le_min (le_trans (le_refl 0) (le_max_right x 0)) zero_le_one, min_le_right _ _⟩

theorem run_reset_rate_updates_mem (steps : List (ℚ → ℚ)) (x : ℚ)
    (hx : 0 ≤ x ∧ x ≤ 1) :
    0 ≤ SACWithReset.run_reset_rate_updates steps x ∧
      SACWithReset.run_reset_rate_updates steps x ≤ 1 := by
  induction steps generalizing x with
  | nil => simpa [SACWithReset.run_reset_rate_updates] using hx
  | cons s ss ih =>
    rw [SACWithReset.run_reset_rate_updates, List.foldl_cons]
    exact ih _ (clip_mem_unit_interval _)

theorem real_tanh_lt_one (x : ℝ) : Real.tanh x < 1 := by
  rw [Real.tanh_eq_sinh_div_cosh, div_lt_one (Real.cosh_pos x)]
  linarith [Real.cosh_sub_sinh x, Real.exp_pos (-x)]

theorem real_neg_one_lt_tanh (x : ℝ) : -1 < Real.tanh x := by
  rw [Real.tanh_eq_sinh_div_cosh, lt_div_iff₀ (Real.cosh_pos x)]
  linarith [Real.cosh_add_sinh x, Real.exp_pos x]

theorem log_one_sub_tanh_sq (x : ℝ) :
    Real.log (1 - Real.tanh x ^ 2) = 2 * (Real.log 2 - x - softplus (-2 * x)) := by
  have hc := Real.cosh_pos x
  have h1 : 1 - Real.tanh x ^ 2 = 1 / Real.cosh x ^ 2 := by
    rw [Real.tanh_eq_sinh_div_cosh, div_pow, one_sub_div (by positivity),
      Real.cosh_sq_sub_sinh_sq]
  have e1 : Real.exp (-x) * Real.exp x = 1 := by
    rw [← Real.exp_add]; norm_num
  have e2 : Real.exp (-x) * Real.exp (-x) = Real.exp (-2 * x) := by
    rw [← Real.exp_add]; congr 1; ring
  have h3 : 1 + Real.exp (-2 * x) = Real.exp (-x) * (2 * Real.cosh x) := by
    rw [Real.cosh_eq]
    calc 1 + Real.exp (-2 * x)
        = Real.exp (-x) * Real.exp x + Real.exp (-x) * Real.exp (-x) := by rw [e1, e2]
      _ = Real.exp (-x) * (2 * ((Real.exp x + Real.exp (-x)) / 2)) := by ring
  have h4 : softplus (-2 * x) = -x + (Real.log 2 + Real.log (Real.cosh x)) := by
    unfold softplus
    rw [h3, Real.log_mul (Real.exp_pos (-x)).ne' (by positivity), Real.log_exp,
      Real.log_mul (by norm_num) hc.ne']
  rw [h1, one_div, Real.log_inv, Real.log_pow, h4]
  push_cast
  ring

theorem action_entry_bounds (high low u : ℝ) (hle : low ≤ high) :
    low ≤ GaussianPolicy.action_entry ((high - low) / 2) ((high + low) / 2) u ∧
      GaussianPolicy.action_entry ((high - low) / 2) ((high + low) / 2) u ≤ high := by
  have h1 := real_tanh_lt_one u
  have h2 := real_neg_one_lt_tanh u
  unfold GaussianPolicy.action_entry
  constructor <;> nlinarith

theorem squash_correction_eq_of_scale_one (scale u : List ℝ)
    (hs : ∀ s ∈ scale, s = 1) :
    2 * (List.zipWith (fun s ui => s * (Real.log 2 - ui - softplus (-2 * ui)))
        scale u).sum =
      (List.zipWith (fun s ui => Real.log (s * (1 - Real.tanh ui ^ 2)))
        scale u).sum := by
  induction scale generalizing u with
  | nil => simp
  | cons s ss ih =>
    cases u with
    | nil => simp
    | cons ui us =>
      have hs1 : s = 1 := hs s (List.mem_cons_self s ss)
      have ihs : ∀ a ∈ ss, a = 1 := fun a ha => hs a (List.mem_cons_of_mem s ha)
      simp only [List.zipWith_cons_cons, List.sum_cons, hs1, one_mul]
      rw [mul_add, ih us ihs, log_one_sub_tanh_sq]

/-! ## Claim theorems -/

/-- C4: DDPG.compute_q_loss returns the mean squared error between the online
Q prediction on (state, action) and the Bellman target
reward + gamma * (1 - terminal) * Q_target(s', a'), where a' is the action
sampled from the target policy at the next state. -/
theorem ddpg_compute_q_loss_spec {S A : Type} (m : DDPGModel S A) (b : DDPGBatch S A) :
    DDPG.compute_q_loss m b =
      mse_loss (List.zipWith m.q b.state b.action)
        (zipWith3
          (fun r t s' =>
            r + m.gamma * (1 - (if t then (1 : ℚ) else 0)) *
              m.q_target s' (m.policy_target_sample s'))
          b.reward b.terminal b.next_state) := by
  simp only [DDPG.compute_q_loss]
  congr 1
  apply zipWith3_congr
  intro r t s'
  unfold DDPG.q_target_entry bool_not_float
  cases t <;> norm_num

/-- C1: for every training batch (with ordinary, non-NaN rewards, so that the
reward entries denote numbers), SACWithReset.compute_q_loss forms the
entropy-regularized Bellman target
reward + (1 - terminal) * gamma * (min(Q1_target(s', a'), Q2_target(s', a'))
- temperature * log pi(a'|s')), a' drawn from the current policy at the next
state, and returns the mean of the two MSE losses of q1 and q2 against it,
i.e. their sum scaled by 0.5. -/
theorem sac_compute_q_loss_spec {S A : Type} (m : SACWithResetModel S A)
    (b : TrainingBatch S A) (rs : List ℚ) (h : b.reward = rs.map FloatVal.val) :
    SACWithReset.compute_q_loss m b =
      (1 / 2) *
        (mse_loss (List.zipWith m.q1 b.state b.action)
            (zipWith3
              (fun r t s' =>
                r + (1 - (if t then (1 : ℚ) else 0)) * m.gamma *
                  (min (m.q1_target s' (m.policy_sample s'))
                      (m.q2_target s' (m.policy_sample s')) -
                    m.temperature * m.policy_log_prob s' (m.policy_sample s')))
              rs b.terminal b.next_state) +
          mse_loss (List.zipWith m.q2 b.state b.action)
            (zipWith3
              (fun r t s' =>
                r + (1 - (if t then (1 : ℚ) else 0)) * m.gamma *
                  (min (m.q1_target s' (m.policy_sample s'))
                      (m.q2_target s' (m.policy_sample s')) -
                    m.temperature * m.policy_log_prob s' (m.policy_sample s')))
              rs b.terminal b.next_state)) := by
  simp only [SACWithReset.compute_q_loss, SACWithReset.q_target_list, h,
    zipWith3_map_left]
  congr 2 <;>
  · congr 1
    apply zipWith3_congr
    intro r t s'
    simp only [SACWithReset.bellman_target, nan_to_num, bool_not_float]
    cases t <;> norm_num

/-- Witness for C1 at the concrete agent sacW and batch batchW. -/
theorem sac_compute_q_loss_spec_witness :
    (batchW.reward = List.map FloatVal.val [3]) ∧
    SACWithReset.compute_q_loss sacW batchW =
      (1 / 2) *
        (mse_loss (List.zipWith sacW.q1 batchW.state batchW.action)
            (zipWith3
              (fun r t s' =>
                r + (1 - (if t then (1 : ℚ) else 0)) * sacW.gamma *
                  (min (sacW.q1_target s' (sacW.policy_sample s'))
                      (sacW.q2_target s' (sacW.policy_sample s')) -
                    sacW.temperature * sacW.policy_log_prob s' (sacW.policy_sample s')))
              [3] batchW.terminal batchW.next_state) +
          mse_loss (List.zipWith sacW.q2 batchW.state batchW.action)
            (zipWith3
              (fun r t s' =>
                r + (1 - (if t then (1 : ℚ) else 0)) * sacW.gamma *
                  (min (sacW.q1_target s' (sacW.policy_sample s'))
                      (sacW.q2_target s' (sacW.policy_sample s')) -
                    sacW.temperature * sacW.policy_log_prob s' (sacW.policy_sample s')))
              [3] batchW.terminal batchW.next_state)) :=
  ⟨rfl, sac_compute_q_loss_spec sacW batchW [3] rfl⟩

/-- C2: at construction every target network equals a copy of its online
network, and every _sync_target_network call soft-updates each target
parameter to (1 - tau) * target + tau * online — for DDPG's policy and Q
networks and additionally for SACWithReset's reset_rate and reset_q — while
leaving the online parameters unchanged. -/
theorem target_network_sync_spec (policy q rr rq : List ℚ) (tau : ℚ)
    (p : DDPGParams) (sp : SACWithResetParams) :
    ((DDPG.init_params policy q).policy_target = policy ∧
      (DDPG.init_params policy q).q_target = q ∧
      (SACWithReset.init_reset_params rr rq).reset_rate_target = rr ∧
      (SACWithReset.init_reset_params rr rq).reset_q_target = rq) ∧
    ((DDPG.sync_target_network tau p).policy_target =
        List.zipWith (fun t o => (1 - tau) * t + tau * o) p.policy_target p.policy ∧
      (DDPG.sync_target_network tau p).q_target =
        List.zipWith (fun t o => (1 - tau) * t + tau * o) p.q_target p.q ∧
      (SACWithReset.sync_reset_targets tau sp).reset_rate_target =
        List.zipWith (fun t o => (1 - tau) * t + tau * o) sp.reset_rate_target sp.reset_rate ∧
      (SACWithReset.sync_reset_targets tau sp).reset_q_target =
        List.zipWith (fun t o => (1 - tau) * t + tau * o) sp.reset_q_target sp.reset_q) ∧
    ((DDPG.sync_target_network tau p).policy = p.policy ∧
      (DDPG.sync_target_network tau p).q = p.q ∧
      (SACWithReset.sync_reset_targets tau sp).reset_rate = sp.reset_rate ∧
      (SACWithReset.sync_reset_targets tau sp).reset_q = sp.reset_q) := by
  refine ⟨⟨rfl, rfl, rfl, rfl⟩, ⟨?_, ?_, ?_, ?_⟩, rfl, rfl, rfl, rfl⟩ <;>
  · simp only [DDPG.sync_target_network, SACWithReset.sync_reset_targets,
      synchronize_parameters_soft]
    rw [List.zipWith_comm]

/-- C3: in SACWithReset, a NaN reward entry is replaced by minus the learned
reset cost in the Bellman target of compute_q_loss while ordinary entries are
kept, and the reset indicator entering the reset-Q and reset-rate targets of
compute_reset_losses is 1.0 exactly on NaN-reward entries and 0.0 otherwise. -/
theorem sac_nan_reward_handling {S A : Type} (m : SACWithResetModel S A)
    (b : TrainingBatch S A) :
    (∀ (x : ℚ) (t : Bool) (s' : S),
      SACWithReset.bellman_target m (FloatVal.val x) t s' =
        x + bool_not_float t * m.gamma *
          (min (m.q1_target s' (m.policy_sample s'))
              (m.q2_target s' (m.policy_sample s')) -
            m.temperature * m.policy_log_prob s' (m.policy_sample s'))) ∧
    (∀ (t : Bool) (s' : S),
      SACWithReset.bellman_target m FloatVal.nan t s' =
        -m.reset_cost + bool_not_float t * m.gamma *
          (min (m.q1_target s' (m.policy_sample s'))
              (m.q2_target s' (m.policy_sample s')) -
            m.temperature * m.policy_log_prob s' (m.policy_sample s'))) ∧
    (SACWithReset.reset_q_target_list m b =
      List.zipWith
        (fun r s' =>
          (if r = FloatVal.nan then (1 : ℚ) else 0) - m.reset_rate_target +
            SACWithReset.next_reset_q m s')
        b.reward b.next_state) ∧
    (SACWithReset.reset_rate_target_list m b =
      zipWith3
        (fun r cq s' =>
          (if r = FloatVal.nan then (1 : ℚ) else 0) - cq +
            SACWithReset.next_reset_q m s')
        b.reward (List.zipWith m.reset_q_target b.state b.action) b.next_state) := by
  refine ⟨fun x t s' => rfl, fun t s' => rfl, ?_, ?_⟩
  · apply zipWith_congr_fun
    intro r s'
    rw [isnan_float_eq_ite]
  · apply zipWith3_congr
    intro r cq s'
    rw [isnan_float_eq_ite]

/-- C5: with training on, update_if_dataset_is_ready (DDPG and SACWithReset)
performs a gradient update iff the buffer length strictly exceeds
replay_start_size; then exactly batch_size transitions are sampled and
just_updated is True; otherwise networks, optimizers and buffer are unchanged
and just_updated is False.  batch_size ≤ replay_start_size as in every
construction in src. -/
theorem update_if_dataset_is_ready_spec {T N : Type}
    (replay_start_size batch_size : ℕ) (upd : N → List T → N)
    (st : DDPGAgentState T N) (st2 : SACAgentState T N)
    (hbs : batch_size ≤ replay_start_size) :
    ((DDPG.update_if_dataset_is_ready replay_start_size batch_size upd st).just_updated =
        decide (replay_start_size < st.replay_buffer.length)) ∧
    ((DDPG.update_if_dataset_is_ready replay_start_size batch_size upd st).replay_buffer =
        st.replay_buffer) ∧
    (replay_start_size < st.replay_buffer.length →
      (DDPG.update_if_dataset_is_ready replay_start_size batch_size upd st).nets =
          upd st.nets (ReplayBuffer.sample st.replay_buffer batch_size) ∧
        (ReplayBuffer.sample st.replay_buffer batch_size).length = batch_size) ∧
    (¬ replay_start_size < st.replay_buffer.length →
      (DDPG.update_if_dataset_is_ready replay_start_size batch_size upd st).nets = st.nets ∧
        (DDPG.update_if_dataset_is_ready replay_start_size batch_size upd st).num_update =
          st.num_update) ∧
    ((SACWithReset.update_if_dataset_is_ready replay_start_size batch_size upd st2).just_updated =
        decide (replay_start_size < st2.replay_buffer.length)) ∧
    ((SACWithReset.update_if_dataset_is_ready replay_start_size batch_size upd st2).replay_buffer =
        st2.replay_buffer) ∧
    (replay_start_size < st2.replay_buffer.length →
      (SACWithReset.update_if_dataset_is_ready replay_start_size batch_size upd st2).nets =
          upd st2.nets (ReplayBuffer.sample st2.replay_buffer batch_size) ∧
        (ReplayBuffer.sample st2.replay_buffer batch_size).length = batch_size) ∧
    (¬ replay_start_size < st2.replay_buffer.length →
      (SACWithReset.update_if_dataset_is_ready replay_start_size batch_size upd st2).nets =
        st2.nets) := by
  have hlen : ∀ (l : List T), replay_start_size < l.length →
      (ReplayBuffer.sample l batch_size).length = batch_size := by
    intro l hl
    simp only [ReplayBuffer.sample, List.length_take]
    omega
  refine ⟨?_, ?_, fun h => ⟨?_, hlen _ h⟩, fun h => ⟨?_, ?_⟩, ?_, ?_,
    fun h => ⟨?_, hlen _ h⟩, fun h => ?_⟩
  · by_cases h : replay_start_size < st.replay_buffer.length <;>
      simp [DDPG.update_if_dataset_is_ready, h]
  · by_cases h : replay_start_size < st.replay_buffer.length <;>
      simp [DDPG.update_if_dataset_is_ready, h]
  · simp [DDPG.update_if_dataset_is_ready, h]
  · simp [DDPG.update_if_dataset_is_ready, h]
  · simp [DDPG.update_if_dataset_is_ready, h]
  · by_cases h2 : replay_start_size < st2.replay_buffer.length <;>
      simp [SACWithReset.update_if_dataset_is_ready, h2]
  · by_cases h2 : replay_start_size < st2.replay_buffer.length <;>
      simp [SACWithReset.update_if_dataset_is_ready, h2]
  · simp [SACWithReset.update_if_dataset_is_ready, h]
  · simp [SACWithReset.update_if_dataset_is_ready, h]

/-- Witness for C5 at replay_start_size = 1, batch_size = 1 and the concrete
agent states ddpgStW and sacStW (buffer length 3 > 1). -/
theorem update_if_dataset_is_ready_spec_witness :
    (1 ≤ 1) ∧
    (((DDPG.update_if_dataset_is_ready 1 1 updW ddpgStW).just_updated =
        decide (1 < ddpgStW.replay_buffer.length)) ∧
    ((DDPG.update_if_dataset_is_ready 1 1 updW ddpgStW).replay_buffer =
        ddpgStW.replay_buffer) ∧
    (1 < ddpgStW.replay_buffer.length →
      (DDPG.update_if_dataset_is_ready 1 1 updW ddpgStW).nets =
          updW ddpgStW.nets (ReplayBuffer.sample ddpgStW.replay_buffer 1) ∧
        (ReplayBuffer.sample ddpgStW.replay_buffer 1).length = 1) ∧
    (¬ 1 < ddpgStW.replay_buffer.length →
      (DDPG.update_if_dataset_is_ready 1 1 updW ddpgStW).nets = ddpgStW.nets ∧
        (DDPG.update_if_dataset_is_ready 1 1 updW ddpgStW).num_update =
          ddpgStW.num_update) ∧
    ((SACWithReset.update_if_dataset_is_ready 1 1 updW sacStW).just_updated =
        decide (1 < sacStW.replay_buffer.length)) ∧
    ((SACWithReset.update_if_dataset_is_ready 1 1 updW sacStW).replay_buffer =
        sacStW.replay_buffer) ∧
    (1 < sacStW.replay_buffer.length →
      (SACWithReset.update_if_dataset_is_ready 1 1 updW sacStW).nets =
          updW sacStW.nets (ReplayBuffer.sample sacStW.replay_buffer 1) ∧
        (ReplayBuffer.sample sacStW.replay_buffer 1).length = 1) ∧
    (¬ 1 < sacStW.replay_buffer.length →
      (SACWithReset.update_if_dataset_is_ready 1 1 updW sacStW).nets = sacStW.nets)) :=
  ⟨le_refl 1, update_if_dataset_is_ready_spec 1 1 updW ddpgStW sacStW (le_refl 1)⟩

/-- C6: a replay buffer of bounded capacity never holds more than capacity
transitions, over every sequence of append, sample, stop_current_episode,
save and load operations. -/
theorem replay_buffer_capacity_invariant {T : Type} (capacity : ℕ) (buf : List T)
    (ops : List (BufOp T)) (h : buf.length ≤ capacity) :
    (ReplayBuffer.run capacity buf ops).length ≤ capacity := by
  induction ops generalizing buf with
  | nil => simpa [ReplayBuffer.run] using h
  | cons op ops ih =>
    rw [ReplayBuffer.run, List.foldl_cons]
    exact ih _ (applyOp_length_le capacity buf op h)

/-- Witness for C6: starting empty with capacity 2 and running the concrete
operation sequence opsW keeps the length at most 2. -/
theorem replay_buffer_capacity_invariant_witness :
    ([] : List ℕ).length ≤ 2 ∧ (ReplayBuffer.run 2 ([] : List ℕ) opsW).length ≤ 2 :=
  ⟨by decide, replay_buffer_capacity_invariant 2 [] opsW (by decide)⟩

/-- C9: after every _update_reset_cost call — whatever gradient step the
optimizer takes — the reset_rate parameter lies in [0, 1], because each call
ends with ResetRate.clip; hence every later read of reset_rate sees a value
in [0, 1]. -/
theorem reset_rate_unit_interval (steps : List (ℚ → ℚ)) (x : ℚ) (h : steps ≠ []) :
    0 ≤ SACWithReset.run_reset_rate_updates steps x ∧
      SACWithReset.run_reset_rate_updates steps x ≤ 1 := by
  cases steps with
  | nil => exact absurd rfl h
  | cons s ss =>
    rw [SACWithReset.run_reset_rate_updates, List.foldl_cons]
    exact run_reset_rate_updates_mem ss _ (clip_mem_unit_interval _)

/-- Witness for C9 at the concrete step sequence stepsW (whose first step
moves the parameter to 29/4, far outside the unit interval). -/
theorem reset_rate_unit_interval_witness :
    stepsW ≠ [] ∧
      (0 ≤ SACWithReset.run_reset_rate_updates stepsW (1 / 4) ∧
        SACWithReset.run_reset_rate_updates stepsW (1 / 4) ≤ 1) :=
  ⟨by simp [stepsW], reset_rate_unit_interval stepsW (1 / 4) (by simp [stepsW])⟩

/-- C10: SingleAsVectorEnv.step_wait returns observation, reward and done
arrays of length exactly 1, and when the wrapped env reports done the
returned observation is the freshly reset one while the episode's final
observation is stored in the info dictionary under "terminal_observation". -/
theorem single_as_vector_env_step_wait_spec {Obs : Type}
    (observation reset_observation : Obs) (reward : ℚ) (done : Bool)
    (info : List (String × Obs)) :
    ((SingleAsVectorEnv.step_wait observation reward done info reset_observation).1.length = 1 ∧
      (SingleAsVectorEnv.step_wait observation reward done info reset_observation).2.1.length = 1 ∧
      (SingleAsVectorEnv.step_wait observation reward done info reset_observation).2.2.1.length = 1 ∧
      (SingleAsVectorEnv.step_wait observation reward done info reset_observation).2.2.2.length = 1) ∧
    (done = true →
      (SingleAsVectorEnv.step_wait observation reward done info reset_observation).1 =
          [reset_observation] ∧
        (SingleAsVectorEnv.step_wait observation reward done info reset_observation).2.2.2 =
          [("terminal_observation", observation) :: info] ∧
        (("terminal_observation", observation) :: info).lookup "terminal_observation" =
          some observation) := by
  cases done <;> simp [SingleAsVectorEnv.step_wait, List.lookup]

/-- Witness for C10 at a concrete done step. -/
theorem single_as_vector_env_step_wait_witness :
    ((SingleAsVectorEnv.step_wait (7 : ℚ) 2 true [] 9).1.length = 1 ∧
      (SingleAsVectorEnv.step_wait (7 : ℚ) 2 true [] 9).2.1.length = 1 ∧
      (SingleAsVectorEnv.step_wait (7 : ℚ) 2 true [] 9).2.2.1.length = 1 ∧
      (SingleAsVectorEnv.step_wait (7 : ℚ) 2 true [] 9).2.2.2.length = 1) ∧
    (true = true →
      (SingleAsVectorEnv.step_wait (7 : ℚ) 2 true [] 9).1 = [9] ∧
        (SingleAsVectorEnv.step_wait (7 : ℚ) 2 true [] 9).2.2.2 =
          [[("terminal_observation", 7)]] ∧
        ([("terminal_observation", (7 : ℚ))]).lookup "terminal_observation" = some 7) :=
  single_as_vector_env_step_wait_spec 7 9 2 true []

/-- C7 counterexample: at action_high = [5], action_low = [1] (so action_scale
= [2]) and pre-squash sample u = [0] with a standard normal, the log_prob
computed by GaussianPolicy.sample differs from the true log-density of the
squashed, scaled-and-shifted Gaussian: the code multiplies action_scale into
the tanh correction term instead of adding log(action_scale), so its
correction vanishes at u = 0 while the true correction is log 2. -/
theorem gaussian_policy_log_prob_counterexample :
    GaussianPolicy.log_prob [0] [1] (GaussianPolicy.action_scale [5] [1]) [0] ≠
      squashed_gaussian_log_density [0] [1] (GaussianPolicy.action_scale [5] [1]) [0] := by
  have hsc : GaussianPolicy.action_scale [5] [1] = [2] := by
    norm_num [GaussianPolicy.action_scale]
  have hsp0 : softplus 0 = Real.log 2 := by
    norm_num [softplus, Real.exp_zero]
  have hl2 : 0 < Real.log 2 := Real.log_pos (by norm_num)
  rw [hsc]
  simp only [GaussianPolicy.log_prob, squashed_gaussian_log_density, zipWith3,
    List.zipWith_cons_cons, List.zipWith_nil_right, List.sum_cons, List.sum_nil,
    Real.tanh_zero, mul_zero, neg_zero, hsp0]
  intro hEq
  norm_num at hEq
  linarith

/-- C7 amended: GaussianPolicy.sample returns an action lying between
action_low and action_high componentwise, and a log_prob equal to the Gaussian
log-density of the pre-squash sample minus the code's correction term
2 * Σ scale_i * (log 2 - u_i - softplus(-2 u_i)); this equals the true
change-of-variables log-density of the tanh-squashed, scaled-and-shifted
Gaussian exactly when every action_scale component is 1 (the affine map's
log-scale Jacobian term is mishandled otherwise). -/
theorem gaussian_policy_sample_amended (high low mean std u : List ℝ) (i : ℕ)
    (hhi : i < high.length) (hlo : i < low.length)
    (hact : i < (GaussianPolicy.action (GaussianPolicy.action_scale high low)
      (GaussianPolicy.action_bias high low) u).length)
    (hsc : i < (GaussianPolicy.action_scale high low).length)
    (hbi : i < (GaussianPolicy.action_bias high low).length)
    (hui : i < u.length)
    (hle : low.get ⟨i, hlo⟩ ≤ high.get ⟨i, hhi⟩) :
    (low.get ⟨i, hlo⟩ ≤
        (GaussianPolicy.action (GaussianPolicy.action_scale high low)
          (GaussianPolicy.action_bias high low) u).get ⟨i, hact⟩ ∧
      (GaussianPolicy.action (GaussianPolicy.action_scale high low)
          (GaussianPolicy.action_bias high low) u).get ⟨i, hact⟩ ≤
        high.get ⟨i, hhi⟩) ∧
    ((∀ s ∈ GaussianPolicy.action_scale high low, s = 1) →
      GaussianPolicy.log_prob mean std (GaussianPolicy.action_scale high low) u =
        squashed_gaussian_log_density mean std (GaussianPolicy.action_scale high low) u) := by
  constructor
  · have hval : (GaussianPolicy.action (GaussianPolicy.action_scale high low)
        (GaussianPolicy.action_bias high low) u).get ⟨i, hact⟩ =
        GaussianPolicy.action_entry
          ((GaussianPolicy.action_scale high low).get ⟨i, hsc⟩)
          ((GaussianPolicy.action_bias high low).get ⟨i, hbi⟩)
          (u.get ⟨i, hui⟩) :=
      zipWith3_get GaussianPolicy.action_entry _ _ _ i hact hsc hbi hui
    have hsval : (GaussianPolicy.action_scale high low).get ⟨i, hsc⟩ =
        (high.get ⟨i, hhi⟩ - low.get ⟨i, hlo⟩) / 2 := by
      simp [GaussianPolicy.action_scale, List.get_eq_getElem, List.getElem_zipWith]
    have hbval : (GaussianPolicy.action_bias high low).get ⟨i, hbi⟩ =
        (high.get ⟨i, hhi⟩ + low.get ⟨i, hlo⟩) / 2 := by
      simp [GaussianPolicy.action_bias, List.get_eq_getElem, List.getElem_zipWith]
    rw [hval, hsval, hbval]
    exact action_entry_bounds _ _ _ hle
  · intro hs
    unfold GaussianPolicy.log_prob squashed_gaussian_log_density
    rw [squash_correction_eq_of_scale_one _ _ hs]

/-- Witness for C7's amended claim at action_high = [1], action_low = [-1]
(so action_scale = [1]), u = [0], standard normal, component 0. -/
theorem gaussian_policy_sample_amended_witness :
    (([-1] : List ℝ).get ⟨0, by norm_num⟩ ≤ ([1] : List ℝ).get ⟨0, by norm_num⟩) ∧
    ((([-1] : List ℝ).get ⟨0, by norm_num⟩ ≤
        (GaussianPolicy.action (GaussianPolicy.action_scale [1] [-1])
          (GaussianPolicy.action_bias [1] [-1]) [0]).get
          ⟨0, by simp [GaussianPolicy.action, zipWith3,
            GaussianPolicy.action_scale, GaussianPolicy.action_bias]⟩ ∧
      (GaussianPolicy.action (GaussianPolicy.action_scale [1] [-1])
          (GaussianPolicy.action_bias [1] [-1]) [0]).get
          ⟨0, by simp [GaussianPolicy.action, zipWith3,
            GaussianPolicy.action_scale, GaussianPolicy.action_bias]⟩ ≤
        ([1] : List ℝ).get ⟨0, by norm_num⟩) ∧
    ((∀ s ∈ GaussianPolicy.action_scale [1] [-1], s = 1) →
      GaussianPolicy.log_prob [0] [1] (GaussianPolicy.action_scale [1] [-1]) [0] =
        squashed_gaussian_log_density [0] [1]
          (GaussianPolicy.action_scale [1] [-1]) [0])) :=
  ⟨by norm_num,
    gaussian_policy_sample_amended [1] [-1] [0] [1] [0] 0
      (by norm_num) (by norm_num)
      (by simp [GaussianPolicy.action, zipWith3,
        GaussianPolicy.action_scale, GaussianPolicy.action_bias])
      (by simp [GaussianPolicy.action_scale])
      (by simp [GaussianPolicy.action_bias])
      (by norm_num) (by norm_num)⟩

/-- C8 counterexample: record_videos_from_actor with pixel=False and a string
dir raises NotImplementedError, an exception constructed by library code
itself, contradicting the claim that every error propagating out of a library
function originates in the numeric framework or the environment. -/
theorem record_videos_raises_counterexample :
    record_videos_from_actor ([] : List Unit) false (some "videos") =
      Except.error LibraryError.notImplementedError := rfl

/-- C8 amended: record_videos_from_actor raises the library's own
NotImplementedError exactly when pixel is False and dir is a string; in every
other combination of its pixel and dir arguments it returns normally, and no
other error is produced by the library code itself. -/
theorem record_videos_error_amended {V : Type} (videos : List V) (pixel : Bool)
    (dir : Option String) :
    record_videos_from_actor videos pixel dir =
        Except.error LibraryError.notImplementedError ↔
      (pixel = false ∧ dir ≠ none) := by
  cases pixel <;> cases dir <;> simp [record_videos_from_actor]
